import Mathlib

/-!
Shallow embedding of the `one_fusion` semantic-gateway endpoints
(`src/api/endpoints/semantic.py` and `src/api/endpoints/status.py`).

Conventions of the embedding:
* Python `Optional[str]` becomes `Option String`; Python truthiness of such a
  value (`if x:`) is `py_truthy_str` (falsy iff `None` or the empty string).
* The pydantic models (`app/models/semantic.py`) are not part of the source
  tree; their field lists are taken from how the endpoint code uses them and
  from the data model of the design document (Identity, Message, Metadata,
  RequestPayload, ResponsePayload, LegacyRequest, IntentResolution,
  DispatchResult).
* Exceptions are explicit: a function body that can `raise` returns
  `Except PyException _`.  The `try/except` ladders of the two endpoints are
  `handle_request_errors` / `handle_legacy_errors`, matching the order of the
  `except` clauses in the source (`except ValueError` first, then
  `except Exception`, which in Python also catches a `fastapi.HTTPException`
  raised inside the `try` block, since `HTTPException` subclasses `Exception`).
* The injected LLM client and intent dispatcher are function parameters,
  mirroring FastAPI dependency injection; the current UTC clock reading taken
  at response construction is the parameter `now`.
-/

/-- One conversational turn (`Message` model): `type`, `role`, `content`. -/
structure Message where
  type : String
  role : String
  content : String
deriving DecidableEq, Repr

/-- Per-request context (`Metadata` model): `session_id`, `user_id`, `mode`,
optional `timestamp` (ISO string, filled by the server when falsy). -/
structure Metadata where
  session_id : String
  user_id : String
  mode : String
  timestamp : Option String
deriving DecidableEq, Repr

/-- The authenticated caller (`User` / Identity): carries the unique id the
endpoints compare against payload claims. -/
structure User where
  id : String
deriving DecidableEq, Repr

/-- Modern request envelope (`RequestPayload`): messages or legacy `input`,
plus opaque generation passthrough parameters. -/
structure RequestPayload where
  messages : List Message
  input : Option String
  metadata : Metadata
  model : Option String
  temperature : Option Float
  max_tokens : Option Nat
deriving Repr

/-- Result of the LLM completion capability (`response` dict in the source):
`messages` plus optional usage accounting, opaque to this development. -/
structure LLMResponse where
  messages : List Message
  usage : Option String
deriving DecidableEq, Repr

/-- Modern response envelope (`ResponsePayload`). -/
structure ResponsePayload where
  messages : List Message
  metadata : Metadata
  usage : Option String
deriving DecidableEq, Repr

/-- Legacy request (`ProcessRequestInput`): `text`, `session_id`, `user_id`. -/
structure ProcessRequestInput where
  text : String
  session_id : String
  user_id : String
deriving DecidableEq, Repr

/-- An entity mapping extracted by the LLM (keys unique, values opaque). -/
abbrev Entities := List (String × String)

/-- Intent extraction result (`llm_response` dict): one intent name plus the
extracted entities. -/
structure IntentResolution where
  intent : String
  entities : Entities
deriving DecidableEq, Repr

/-- Dispatcher result (`dispatcher_result` dict): optional `status` and
`message` keys read with `.get`, and opaque further payload. -/
structure DispatchResult where
  status : Option String
  message : Option String
  extra : List (String × String)
deriving DecidableEq, Repr

/-- Legacy response envelope (`ProcessRequestOutput`). -/
structure ProcessRequestOutput where
  status : String
  message : String
  intent : String
  data : DispatchResult
  request_id : String
deriving DecidableEq, Repr

/-- An HTTP error surfaced to the caller (`fastapi.HTTPException`):
status code plus detail string. -/
structure HTTPException where
  status_code : Nat
  detail : String
deriving DecidableEq, Repr

/-- A Python exception as the endpoint code can observe it: a `ValueError`
(caught by the first `except` clause), a `fastapi.HTTPException` raised inside
the `try` block, or any other `Exception` (backend/transport failures,
`KeyError` on malformed resolver output, ...). -/
inductive PyException where
  | valueError (msg : String)
  | httpException (e : HTTPException)
  | otherException (msg : String)
deriving DecidableEq, Repr

deriving instance DecidableEq for Except

/-- Python truthiness of an `Optional[str]` value: falsy iff `None` or `""`. -/
def py_truthy_str : Option String → Bool
  | none => false
  | some s => s != ""

/-- The LLM completion capability (`llm_client.process_request`): messages,
mode, and the opaque `model` / `temperature` / `max_tokens` passthroughs. -/
abbrev LLMClient :=
  List Message → String → Option String → Option Float → Option Nat →
    Except PyException LLMResponse

/-- The LLM intent-extraction capability (`llm_client.get_intent_and_entities`):
free text plus session id. -/
abbrev IntentClient := String → String → Except PyException IntentResolution

/-- The intent dispatcher interface (`dispatch_intent`): intent name, entity
mapping, user id. -/
abbrev Dispatcher := String → Entities → String → Except PyException DispatchResult

/-- A registered intent handler: opaque function taking the entities and the
user id, producing a `DispatchResult`-shaped value. -/
abbrev Handler := Entities → String → Except PyException DispatchResult

/-- Resolution of the effective message sequence, `semantic.py` lines 63-81:
a truthy (non-empty) `messages` list wins; otherwise a truthy (non-empty)
`input` string is promoted to a single synthetic user message; otherwise an
`HTTPException 400` is raised (inside the `try` block). -/
def resolve_messages (payload : RequestPayload) : Except PyException (List Message) :=
  if !payload.messages.isEmpty then
    .ok payload.messages
  else if py_truthy_str payload.input then
    .ok [{ type := "text", role := "user", content := payload.input.getD "" }]
  else
    .error (.httpException
      ⟨400, "Request must contain either \x27input\x27 or \x27messages\x27"⟩)

/-- Timestamp backfill, `semantic.py` lines 92-94: `if not payload.metadata.timestamp`
replaces a falsy (absent or empty) timestamp with the current UTC ISO string. -/
def fill_timestamp (m : Metadata) (now : String) : Metadata :=
  if py_truthy_str m.timestamp then m else { m with timestamp := some now }

/-- Response assembly, `semantic.py` lines 92-101: the LLM messages, the
(possibly timestamp-filled) request metadata, and the LLM usage accounting. -/
def build_response (now : String) (m : Metadata) (r : LLMResponse) : ResponsePayload :=
  { messages := r.messages, metadata := fill_timestamp m now, usage := r.usage }

/-- Body of the `try` block of `process_request` (`semantic.py` lines 62-104). -/
def process_request_try (llm : LLMClient) (now : String) (payload : RequestPayload) :
    Except PyException ResponsePayload := do
  let messages ← resolve_messages payload
  let response ← llm messages payload.metadata.mode payload.model
    payload.temperature payload.max_tokens
  pure (build_response now payload.metadata response)

/-- The `except` ladder of `process_request` (`semantic.py` lines 106-117):
`except ValueError` re-raises a 400 echoing `str(e)`; `except Exception`
(which also catches an `HTTPException` raised inside the `try` block)
re-raises a 500 with a fixed generic detail. -/
def handle_request_errors :
    Except PyException ResponsePayload → Except HTTPException ResponsePayload
  | .ok r => .ok r
  | .error (.valueError m) => .error ⟨400, m⟩
  | .error _ => .error ⟨500, "An error occurred while processing the request"⟩

/-- The modern endpoint `process_request` (`semantic.py` lines 26-117):
the user-id authorization check runs before the `try` block; then the
`try` body under the `except` ladder. -/
def process_request (llm : LLMClient) (now : String) (current_user : User)
    (payload : RequestPayload) : Except HTTPException ResponsePayload :=
  if payload.metadata.user_id != current_user.id then
    .error ⟨403, "User ID in payload does not match authenticated user"⟩
  else
    handle_request_errors (process_request_try llm now payload)

/-- Body of the `try` block of `legacy_process_request`
(`semantic.py` lines 167-195): intent extraction, dispatch, then response
assembly with `.get`-style defaults for `status` and `message`. -/
def legacy_process_request_try (llm : IntentClient) (dispatch : Dispatcher)
    (request_id : String) (current_user : User) (request_data : ProcessRequestInput) :
    Except PyException ProcessRequestOutput := do
  let llm_response ← llm request_data.text request_data.session_id
  let dispatcher_result ←
    dispatch llm_response.intent llm_response.entities current_user.id
  let final_status := dispatcher_result.status.getD "success"
  let final_message := dispatcher_result.message.getD
    ("Action for intent \x27" ++ llm_response.intent ++ "\x27 completed.")
  pure { status := final_status, message := final_message,
         intent := llm_response.intent, data := dispatcher_result,
         request_id := request_id }

/-- The `except` ladder of `legacy_process_request` (`semantic.py` lines
197-208): `ValueError` becomes a 400 echoing `str(e)`; anything else becomes
a 500 with the fixed detail `"Internal server error"`. -/
def handle_legacy_errors :
    Except PyException ProcessRequestOutput → Except HTTPException ProcessRequestOutput
  | .ok r => .ok r
  | .error (.valueError m) => .error ⟨400, m⟩
  | .error _ => .error ⟨500, "Internal server error"⟩

/-- The legacy endpoint `legacy_process_request` (`semantic.py` lines 128-208):
user-id authorization check, then the `try` body under the `except` ladder.
`request_id` is the per-request correlation id (`str(uuid.uuid4())`). -/
def legacy_process_request (llm : IntentClient) (dispatch : Dispatcher)
    (request_id : String) (current_user : User) (request_data : ProcessRequestInput) :
    Except HTTPException ProcessRequestOutput :=
  if request_data.user_id != current_user.id then
    .error ⟨403, "User ID in payload does not match authenticated user"⟩
  else
    handle_legacy_errors
      (legacy_process_request_try llm dispatch request_id current_user request_data)

/-- Modelled from the spec: `dispatch_intent` lives in `app/services/dispatcher.py`,
which is not part of the source tree (only its caller is).  Per §4.3 of the
design document, the dispatcher locates a handler registered for the intent
name and invokes it with the entities and the user id; an intent absent from
the registry raises a distinct unroutable-intent error that the orchestrator
must map to a client error — hence a `ValueError`, the one exception class the
orchestrator maps to a 400 — and no handler is executed. -/
def dispatch_intent (registry : List (String × Handler)) : Dispatcher :=
  fun intent entities user_id =>
    match registry.lookup intent with
    | none => .error (.valueError ("Unknown intent: " ++ intent))
    | some handler => handler entities user_id

/-- Per-component rendering of one probe outcome in the health check:
`"ok"` on a successful ping, `"error"` when the ping raised. -/
def probe_status (ping : Except String Unit) : String :=
  match ping with
  | .ok _ => "ok"
  | .error _ => "error"

/-- The `component_statuses` dict of `get_application_status`
(`status.py` lines 37-76): MongoDB probe, Redis probe, and the unimplemented
Celery worker check recorded as `"check_not_implemented"`. -/
def component_statuses (dbPing redisPing : Except String Unit) : List (String × String) :=
  [("database_mongodb", probe_status dbPing),
   ("cache_broker_redis", probe_status redisPing),
   ("celery_workers", "check_not_implemented")]

/-- The `overall_ok` flag of `get_application_status`: starts `True`, flipped
to `False` by a MongoDB or Redis probe failure (`status.py` lines 38-58);
the Celery entry never touches it. -/
def overall_ok (dbPing redisPing : Except String Unit) : Bool :=
  dbPing.isOk && redisPing.isOk

/-- Python `repr`-style rendering of the component-status dict, used in the
`status_message` f-string. -/
def render_components (l : List (String × String)) : String :=
  "\x7b" ++ String.intercalate ", "
    (l.map (fun p => "\x27" ++ p.1 ++ "\x27: \x27" ++ p.2 ++ "\x27")) ++ "\x7d"

/-- The `status_message` f-string of `get_application_status` (`status.py` line 80). -/
def status_message (dbPing redisPing : Except String Unit) : String :=
  "Overall: " ++ (if overall_ok dbPing redisPing then "ok" else "error").toUpper
    ++ " | Components: " ++ render_components (component_statuses dbPing redisPing)

/-- Health-check response model (`StatusResponse`): overall status plus message. -/
structure StatusResponse where
  status : String
  message : String
deriving DecidableEq, Repr

/-- The health endpoint `get_application_status` (`status.py` lines 23-89):
probes MongoDB and Redis with individual failure isolation, records the
Celery check as unimplemented, and raises a 503 carrying the full component
enumeration when any critical probe failed; otherwise returns the `"ok"`
status response. -/
def get_application_status (dbPing redisPing : Except String Unit) :
    Except HTTPException StatusResponse :=
  if !(overall_ok dbPing redisPing) then
    .error ⟨503, status_message dbPing redisPing⟩
  else
    .ok { status := "ok", message := "All critical components operational." }

/-! Concrete fixtures used by witnesses and counterexamples. -/

/-- A sample authenticated caller. -/
def okUser : User := { id := "user_1" }

/-- Sample request metadata whose `user_id` matches `okUser`, with no timestamp. -/
def okMetadata : Metadata :=
  { session_id := "sess_1", user_id := "user_1", mode := "chat", timestamp := none }

/-- A payload carrying only the legacy `input` field. -/
def basePayload : RequestPayload :=
  { messages := [], input := some "hello", metadata := okMetadata,
    model := none, temperature := none, max_tokens := none }

/-- A payload with neither `messages` nor `input` populated. -/
def missingBothPayload : RequestPayload := { basePayload with input := none }

/-- A payload with an empty `messages` list and an empty-string `input`. -/
def emptyInputPayload : RequestPayload := { basePayload with input := some "" }

/-- A payload carrying a present-but-empty `metadata.timestamp`. -/
def emptyTsPayload : RequestPayload :=
  { basePayload with metadata := { okMetadata with timestamp := some "" } }

/-- A payload where both `messages` and `input` are populated. -/
def msgPayload : RequestPayload :=
  { basePayload with
    messages := [{ type := "text", role := "user", content := "from messages" }],
    input := some "ignored" }

/-- An LLM completion double that always succeeds with one assistant message. -/
def stubLLM : LLMClient := fun _ _ _ _ _ =>
  .ok { messages := [{ type := "text", role := "assistant", content := "hi there" }],
        usage := none }

/-- An LLM completion double that always raises the given exception. -/
def failLLM (e : PyException) : LLMClient := fun _ _ _ _ _ => .error e

/-- An intent-extraction double that always raises the given exception. -/
def failIntentLLM (e : PyException) : IntentClient := fun _ _ => .error e

/-- An intent-extraction double that always returns the given resolution. -/
def stubIntentLLM (res : IntentResolution) : IntentClient := fun _ _ => .ok res

/-- A dispatcher double that always returns the given result. -/
def stubDispatcher (d : DispatchResult) : Dispatcher := fun _ _ _ => .ok d

/-- A registered handler double for the sample registry. -/
def stubHandler : Handler := fun _ _ => .ok { status := some "done", message := some "ok", extra := [] }

/-- A sample legacy request whose `user_id` matches `okUser`. -/
def okLegacyInput : ProcessRequestInput :=
  { text := "create an order", session_id := "sess_1", user_id := "user_1" }

/-! Helper lemmas shared by several claim proofs. -/

/-- The only exception `resolve_messages` raises is the malformed-request
`HTTPException 400`. -/
theorem resolve_messages_error_shape (p : RequestPayload) (err : PyException)
    (h : resolve_messages p = .error err) :
    err = .httpException
      ⟨400, "Request must contain either \x27input\x27 or \x27messages\x27"⟩ := by
  unfold resolve_messages at h
  split at h
  · exact absurd h (by simp)
  · split at h
    · exact absurd h (by simp)
    · simp only [Except.error.injEq] at h
      exact h.symm

/-- The catch-all branch of the modern endpoint: every non-`ValueError`
exception is collapsed to the fixed generic 500 detail. -/
theorem handle_request_errors_not_value (e : PyException)
    (h : ∀ m, e ≠ .valueError m) :
    handle_request_errors (.error e) =
      .error ⟨500, "An error occurred while processing the request"⟩ := by
  cases e with
  | valueError m => exact absurd rfl (h m)
  | httpException he => rfl
  | otherException m => rfl

/-- The catch-all branch of the legacy endpoint: every non-`ValueError`
exception is collapsed to the fixed `"Internal server error"` detail. -/
theorem handle_legacy_errors_not_value (e : PyException)
    (h : ∀ m, e ≠ .valueError m) :
    handle_legacy_errors (.error e) = .error ⟨500, "Internal server error"⟩ := by
  cases e with
  | valueError m => exact absurd rfl (h m)
  | httpException he => rfl
  | otherException m => rfl

/-- C1: whenever `payload.metadata.user_id` differs from the authenticated
identity's id, `process_request` rejects with the 403 authorization error
(distinct from the 400 validation class), and the result is the same for
every LLM client — the LLM Resolver is never invoked
(`semantic.py` lines 54-60 run before the `try` block). -/
theorem auth_mismatch_rejects_without_llm (llm llm2 : LLMClient) (now : String)
    (u : User) (p : RequestPayload) (h : p.metadata.user_id ≠ u.id) :
    process_request llm now u p =
      .error ⟨403, "User ID in payload does not match authenticated user"⟩ ∧
    process_request llm now u p = process_request llm2 now u p ∧
    ∀ d, process_request llm now u p ≠ .error ⟨400, d⟩ := by
  have hb : (p.metadata.user_id != u.id) = true := by simpa using h
  refine ⟨?_, ?_, ?_⟩ <;> simp [process_request, hb]

/-- C1 witness: a concrete mismatching payload is rejected with the 403
authorization error regardless of the LLM client. -/
theorem auth_mismatch_rejects_without_llm_witness :
    process_request stubLLM "T0" okUser
        { basePayload with metadata := { okMetadata with user_id := "intruder" } } =
      .error ⟨403, "User ID in payload does not match authenticated user"⟩ ∧
    process_request stubLLM "T0" okUser
        { basePayload with metadata := { okMetadata with user_id := "intruder" } } =
      process_request (failLLM (.otherException "boom")) "T0" okUser
        { basePayload with metadata := { okMetadata with user_id := "intruder" } } ∧
    ∀ d, process_request stubLLM "T0" okUser
        { basePayload with metadata := { okMetadata with user_id := "intruder" } } ≠
      .error ⟨400, d⟩ :=
  auth_mismatch_rejects_without_llm stubLLM (failLLM (.otherException "boom")) "T0"
    okUser { basePayload with metadata := { okMetadata with user_id := "intruder" } }
    (by decide)

/-- C2 (code bug): for a payload with neither `messages` nor `input`, the
endpoint raises its malformed-request `HTTPException 400` inside the `try`
block (`semantic.py` lines 76-81), but the catch-all `except Exception`
(lines 112-117) catches it — `fastapi.HTTPException` subclasses `Exception` —
and re-raises the generic 500.  So for every LLM client the caller sees the
opaque server error, never the intended 400 client error; the LLM is still
not invoked (the result is independent of `llm`). -/
theorem missing_both_surfaces_500 : ∀ (llm : LLMClient) (now : String),
    process_request llm now okUser missingBothPayload =
      .error ⟨500, "An error occurred while processing the request"⟩ :=
  fun _ _ => rfl

/-- C3: if the datastore probe fails and the cache probe succeeds, the health
check raises the 503 service-unavailable signal carrying the component
enumeration, the cache/broker entry reads `"ok"`, and the overall flag is
false (rendered `"error"`); if both probes succeed it returns the `"ok"`
status response with the success signal. -/
theorem health_check_aggregation (e : String) :
    get_application_status (.error e) (.ok ()) =
      .error ⟨503, status_message (.error e) (.ok ())⟩ ∧
    (component_statuses (.error e) (.ok ())).lookup "cache_broker_redis" =
      some "ok" ∧
    overall_ok (.error e) (.ok ()) = false ∧
    get_application_status (.ok ()) (.ok ()) =
      .ok { status := "ok", message := "All critical components operational." } :=
  ⟨rfl, rfl, rfl, rfl⟩

/-- C4: any non-`ValueError` failure — an LLM Resolver failure or any other
unanticipated exception — surfaces from both endpoints as an opaque server
error whose caller-visible detail is a fixed generic string, independent of
the internal exception's content: two runs differing only in the internal
failure produce the same caller-visible error. -/
theorem internal_failures_opaque (e₁ e₂ : PyException)
    (h₁ : ∀ m, e₁ ≠ .valueError m) (h₂ : ∀ m, e₂ ≠ .valueError m) :
    (∀ (u : User) (p : RequestPayload) (now : String), p.metadata.user_id = u.id →
      process_request (failLLM e₁) now u p = process_request (failLLM e₂) now u p ∧
      process_request (failLLM e₁) now u p =
        .error ⟨500, "An error occurred while processing the request"⟩) ∧
    (∀ (u : User) (rd : ProcessRequestInput) (rid : String) (d : Dispatcher),
      rd.user_id = u.id →
      legacy_process_request (failIntentLLM e₁) d rid u rd =
        legacy_process_request (failIntentLLM e₂) d rid u rd ∧
      legacy_process_request (failIntentLLM e₁) d rid u rd =
        .error ⟨500, "Internal server error"⟩) := by
  constructor
  · intro u p now hu
    have hauth : (p.metadata.user_id != u.id) = false := by simp [hu]
    have key : ∀ (e : PyException), (∀ m, e ≠ .valueError m) →
        process_request (failLLM e) now u p =
          .error ⟨500, "An error occurred while processing the request"⟩ := by
      intro e he
      unfold process_request
      rw [hauth]
      simp only [Bool.false_eq_true, if_false]
      cases hres : resolve_messages p with
      | error err =>
          have hshape := resolve_messages_error_shape p err hres
          subst hshape
          unfold process_request_try
          rw [hres]
          rfl
      | ok msgs =>
          have htry : process_request_try (failLLM e) now p = .error e := by
            unfold process_request_try
            rw [hres]
            rfl
          rw [htry]
          exact handle_request_errors_not_value e he
    exact ⟨(key e₁ h₁).trans (key e₂ h₂).symm, key e₁ h₁⟩
  · intro u rd rid d hu
    have hauth : (rd.user_id != u.id) = false := by simp [hu]
    have key : ∀ (e : PyException), (∀ m, e ≠ .valueError m) →
        legacy_process_request (failIntentLLM e) d rid u rd =
          .error ⟨500, "Internal server error"⟩ := by
      intro e he
      unfold legacy_process_request
      rw [hauth]
      simp only [Bool.false_eq_true, if_false]
      have htry : legacy_process_request_try (failIntentLLM e) d rid u rd = .error e := rfl
      rw [htry]
      exact handle_legacy_errors_not_value e he
    exact ⟨(key e₁ h₁).trans (key e₂ h₂).symm, key e₁ h₁⟩

/-- C4 witness: two concrete distinct internal failures produce the same
fixed generic error from each endpoint. -/
theorem internal_failures_opaque_witness :
    (process_request (failLLM (.otherException "backend down")) "T0" okUser basePayload =
       process_request (failLLM (.httpException ⟨502, "bad gateway"⟩)) "T0" okUser basePayload ∧
     process_request (failLLM (.otherException "backend down")) "T0" okUser basePayload =
       .error ⟨500, "An error occurred while processing the request"⟩) ∧
    (legacy_process_request (failIntentLLM (.otherException "backend down"))
        (dispatch_intent []) "rid0" okUser okLegacyInput =
       legacy_process_request (failIntentLLM (.httpException ⟨502, "bad gateway"⟩))
        (dispatch_intent []) "rid0" okUser okLegacyInput ∧
     legacy_process_request (failIntentLLM (.otherException "backend down"))
        (dispatch_intent []) "rid0" okUser okLegacyInput =
       .error ⟨500, "Internal server error"⟩) :=
  have t := internal_failures_opaque (.otherException "backend down")
    (.httpException ⟨502, "bad gateway"⟩)
    (fun _ h => PyException.noConfusion h) (fun _ h => PyException.noConfusion h)
  ⟨t.1 okUser basePayload "T0" rfl, t.2 okUser okLegacyInput "rid0" (dispatch_intent []) rfl⟩

/-- C5: on a successful legacy run the output is assembled as: `status` from
the DispatchResult defaulting to `"success"`, `message` from the
DispatchResult defaulting to a templated string containing the intent name,
`intent` echoed from the resolution, `data` equal to the full DispatchResult,
and `request_id` equal to the per-request correlation id
(`semantic.py` lines 185-195). -/
theorem legacy_success_assembly (llm : IntentClient) (dispatch : Dispatcher)
    (rid : String) (u : User) (rd : ProcessRequestInput)
    (res : IntentResolution) (dres : DispatchResult)
    (hu : rd.user_id = u.id)
    (hl : llm rd.text rd.session_id = .ok res)
    (hd : dispatch res.intent res.entities u.id = .ok dres) :
    legacy_process_request llm dispatch rid u rd =
      .ok { status := dres.status.getD "success",
            message := dres.message.getD
              ("Action for intent \x27" ++ res.intent ++ "\x27 completed."),
            intent := res.intent, data := dres, request_id := rid } ∧
    (dres.message = none →
      ∃ a b, dres.message.getD
          ("Action for intent \x27" ++ res.intent ++ "\x27 completed.")
        = a ++ res.intent ++ b) := by
  constructor
  · have hauth : (rd.user_id != u.id) = false := by simp [hu]
    unfold legacy_process_request
    rw [hauth]
    simp only [Bool.false_eq_true, if_false]
    unfold legacy_process_request_try
    rw [hl]
    show handle_legacy_errors (dispatch res.intent res.entities u.id >>= _) = _
    rw [hd]
    rfl
  · intro hm
    refine ⟨"Action for intent \x27", "\x27 completed.", ?_⟩
    rw [hm]
    rfl

/-- C5 witness: with a dispatch result lacking `status` and `message`, the
assembled output defaults `status` to `"success"` and `message` to the
templated string naming the intent. -/
theorem legacy_success_assembly_witness :
    legacy_process_request (stubIntentLLM { intent := "create_order", entities := [("qty", "2")] })
        (stubDispatcher { status := none, message := none, extra := [] })
        "rid1" okUser okLegacyInput =
      .ok { status := (none : Option String).getD "success",
            message := (none : Option String).getD
              ("Action for intent \x27" ++ "create_order" ++ "\x27 completed."),
            intent := "create_order",
            data := { status := none, message := none, extra := [] },
            request_id := "rid1" } ∧
    ((none : Option String) = none →
      ∃ a b, (none : Option String).getD
          ("Action for intent \x27" ++ "create_order" ++ "\x27 completed.")
        = a ++ "create_order" ++ b) :=
  legacy_success_assembly
    (stubIntentLLM { intent := "create_order", entities := [("qty", "2")] })
    (stubDispatcher { status := none, message := none, extra := [] })
    "rid1" okUser okLegacyInput
    { intent := "create_order", entities := [("qty", "2")] }
    { status := none, message := none, extra := [] }
    rfl rfl rfl

/-- C6 (spec-modelled dispatcher): for an intent absent from the handler
registry, the legacy endpoint rejects with the unroutable-intent error mapped
to a 400 client error — never a 500 server error — and no handler is
executed: the outcome is the same fixed error for every registry lacking the
intent, independently of any registered handler. -/
theorem unroutable_intent_client_error (registry : List (String × Handler))
    (llm : IntentClient) (rid : String) (u : User) (rd : ProcessRequestInput)
    (res : IntentResolution)
    (hu : rd.user_id = u.id)
    (hl : llm rd.text rd.session_id = .ok res)
    (hreg : registry.lookup res.intent = none) :
    legacy_process_request llm (dispatch_intent registry) rid u rd =
      .error ⟨400, "Unknown intent: " ++ res.intent⟩ ∧
    (∀ d, legacy_process_request llm (dispatch_intent registry) rid u rd ≠
      .error ⟨500, d⟩) ∧
    (∀ registry2 : List (String × Handler), registry2.lookup res.intent = none →
      legacy_process_request llm (dispatch_intent registry2) rid u rd =
        legacy_process_request llm (dispatch_intent registry) rid u rd) := by
  have key : ∀ reg : List (String × Handler), reg.lookup res.intent = none →
      legacy_process_request llm (dispatch_intent reg) rid u rd =
        .error ⟨400, "Unknown intent: " ++ res.intent⟩ := by
    intro reg hr
    have hauth : (rd.user_id != u.id) = false := by simp [hu]
    unfold legacy_process_request
    rw [hauth]
    simp only [Bool.false_eq_true, if_false]
    unfold legacy_process_request_try
    rw [hl]
    show handle_legacy_errors (dispatch_intent reg res.intent res.entities u.id >>= _) = _
    unfold dispatch_intent
    rw [hr]
    rfl
  refine ⟨key registry hreg, ?_, ?_⟩
  · intro d
    rw [key registry hreg]
    simp
  · intro registry2 hreg2
    rw [key registry hreg, key registry2 hreg2]

/-- C6 witness: a concrete intent not present in a concrete registry is
rejected with the 400 unroutable-intent error. -/
theorem unroutable_intent_client_error_witness :
    legacy_process_request (stubIntentLLM { intent := "fly_to_moon", entities := [] })
        (dispatch_intent [("create_order", stubHandler)]) "rid2" okUser okLegacyInput =
      .error ⟨400, "Unknown intent: " ++ "fly_to_moon"⟩ ∧
    (∀ d, legacy_process_request (stubIntentLLM { intent := "fly_to_moon", entities := [] })
        (dispatch_intent [("create_order", stubHandler)]) "rid2" okUser okLegacyInput ≠
      .error ⟨500, d⟩) ∧
    (∀ registry2 : List (String × Handler), registry2.lookup "fly_to_moon" = none →
      legacy_process_request (stubIntentLLM { intent := "fly_to_moon", entities := [] })
          (dispatch_intent registry2) "rid2" okUser okLegacyInput =
        legacy_process_request (stubIntentLLM { intent := "fly_to_moon", entities := [] })
          (dispatch_intent [("create_order", stubHandler)]) "rid2" okUser okLegacyInput) :=
  unroutable_intent_client_error [("create_order", stubHandler)]
    (stubIntentLLM { intent := "fly_to_moon", entities := [] })
    "rid2" okUser okLegacyInput { intent := "fly_to_moon", entities := [] }
    rfl rfl rfl

/-- Inversion of a successful modern run: the response metadata is the
(possibly timestamp-filled) request metadata. -/
theorem process_request_ok_metadata (llm : LLMClient) (now : String) (u : User)
    (p : RequestPayload) (r : ResponsePayload)
    (hrun : process_request llm now u p = .ok r) :
    r.metadata = fill_timestamp p.metadata now := by
  unfold process_request at hrun
  split at hrun
  · exact absurd hrun (by simp)
  · cases htry : process_request_try llm now p with
    | error e =>
        rw [htry] at hrun
        cases e <;> simp [handle_request_errors] at hrun
    | ok v =>
        rw [htry] at hrun
        simp only [handle_request_errors, Except.ok.injEq] at hrun
        subst hrun
        unfold process_request_try at htry
        cases hres : resolve_messages p with
        | error e2 =>
            rw [hres] at htry
            simp only [Bind.bind, Except.bind] at htry
            exact Except.noConfusion htry
        | ok msgs =>
            rw [hres] at htry
            simp only [Bind.bind, Except.bind] at htry
            cases hllm : llm msgs p.metadata.mode p.model p.temperature p.max_tokens with
            | error e3 =>
                rw [hllm] at htry
                simp only [Functor.map, Except.map] at htry
                exact Except.noConfusion htry
            | ok resp =>
                rw [hllm] at htry
                simp only [Functor.map, Except.map, pure, Except.pure,
                  Except.ok.injEq] at htry
                rw [← htry]
                rfl

/-- C7 (amended): on every successful `process_request`, a falsy input
timestamp — absent or empty — is replaced by the clock value sampled at
response construction (non-empty whenever the clock string is), while a
present non-empty timestamp is echoed unchanged.  The amendment over the
claim as written: a present-but-empty timestamp is also overwritten, because
the source tests Python truthiness (`if not payload.metadata.timestamp`),
not presence. -/
theorem timestamp_echo_amended (llm : LLMClient) (now : String) (u : User)
    (p : RequestPayload) (r : ResponsePayload)
    (hrun : process_request llm now u p = .ok r) :
    ((p.metadata.timestamp = none ∨ p.metadata.timestamp = some "") →
      r.metadata.timestamp = some now) ∧
    (∀ s, p.metadata.timestamp = some s → s ≠ "" →
      r.metadata.timestamp = some s) ∧
    (now ≠ "" → ∃ t, r.metadata.timestamp = some t ∧ t ≠ "") := by
  have hmeta := process_request_ok_metadata llm now u p r hrun
  refine ⟨?_, ?_, ?_⟩
  · intro h
    rcases h with h | h <;> rw [hmeta] <;> simp [fill_timestamp, py_truthy_str, h]
  · intro s hs hne
    rw [hmeta]
    simp [fill_timestamp, py_truthy_str, hs, hne]
  · intro hnow
    rw [hmeta]
    unfold fill_timestamp py_truthy_str
    cases hts : p.metadata.timestamp with
    | none => exact ⟨now, rfl, hnow⟩
    | some s =>
        by_cases hse : s = ""
        · subst hse
          exact ⟨now, by simp, hnow⟩
        · exact ⟨s, by simp [hse, hts], hse⟩

/-- C7 witness: a concrete successful run with an absent input timestamp
yields the clock value as the (non-empty) response timestamp. -/
theorem timestamp_echo_amended_witness :
    ((basePayload.metadata.timestamp = none ∨ basePayload.metadata.timestamp = some "") →
      (ResponsePayload.mk
        [{ type := "text", role := "assistant", content := "hi there" }]
        { okMetadata with timestamp := some "2024-01-01T00:00:00+00:00" }
        none).metadata.timestamp = some "2024-01-01T00:00:00+00:00") ∧
    (∀ s, basePayload.metadata.timestamp = some s → s ≠ "" →
      (ResponsePayload.mk
        [{ type := "text", role := "assistant", content := "hi there" }]
        { okMetadata with timestamp := some "2024-01-01T00:00:00+00:00" }
        none).metadata.timestamp = some s) ∧
    ("2024-01-01T00:00:00+00:00" ≠ "" →
      ∃ t, (ResponsePayload.mk
        [{ type := "text", role := "assistant", content := "hi there" }]
        { okMetadata with timestamp := some "2024-01-01T00:00:00+00:00" }
        none).metadata.timestamp = some t ∧ t ≠ "") :=
  timestamp_echo_amended stubLLM "2024-01-01T00:00:00+00:00" okUser basePayload
    (ResponsePayload.mk
      [{ type := "text", role := "assistant", content := "hi there" }]
      { okMetadata with timestamp := some "2024-01-01T00:00:00+00:00" }
      none)
    rfl

/-- C7 counterexample: a payload whose `metadata.timestamp` is present (the
empty string) is not echoed unchanged — the successful response carries the
server-filled clock value instead, refuting the claim as written. -/
theorem timestamp_echo_counterexample :
    emptyTsPayload.metadata.timestamp = some "" ∧
    process_request stubLLM "2024-01-01T00:00:00+00:00" okUser emptyTsPayload =
      .ok { messages := [{ type := "text", role := "assistant", content := "hi there" }],
            metadata := { session_id := "sess_1", user_id := "user_1", mode := "chat",
                          timestamp := some "2024-01-01T00:00:00+00:00" },
            usage := none } ∧
    (some "2024-01-01T00:00:00+00:00" : Option String) ≠ some "" :=
  ⟨rfl, rfl, by decide⟩

/-- C8: on every health check the worker-pool entry carries the distinct
unimplemented-check marker (spelled `"check_not_implemented"` in the source,
the rendering of the design document's `not_checked` state), every recorded
component value lies in the allowed marker set, and the overall verdict is a
function of the two critical probes alone — the worker-pool entry never
affects it (`status.py` lines 60-76 never touch `overall_ok`). -/
theorem worker_pool_never_affects_verdict (dbPing redisPing : Except String Unit) :
    (component_statuses dbPing redisPing).lookup "celery_workers" =
      some "check_not_implemented" ∧
    "check_not_implemented" ∉ ["ok", "error", "unavailable"] ∧
    (∀ pr ∈ component_statuses dbPing redisPing,
      pr.2 = "ok" ∨ pr.2 = "error" ∨ pr.2 = "unavailable" ∨
        pr.2 = "check_not_implemented") ∧
    overall_ok dbPing redisPing = (dbPing.isOk && redisPing.isOk) ∧
    (get_application_status dbPing redisPing).isOk = overall_ok dbPing redisPing := by
  cases dbPing <;> cases redisPing <;>
    refine ⟨rfl, by decide, ?_, rfl, rfl⟩ <;>
    · intro pr h
      simp only [component_statuses, probe_status, List.mem_cons,
        List.not_mem_nil, or_false] at h
      rcases h with h | h | h <;> subst h <;> simp

/-- C9: a payload with `input = "hello"` and no messages resolves to exactly
one synthetic `Message` with role `"user"` and content `"hello"`, and
`process_request` invokes the LLM completion with exactly that one-element
sequence. -/
theorem hello_input_promoted (p : RequestPayload) (u : User)
    (hm : p.messages = []) (hi : p.input = some "hello")
    (hu : p.metadata.user_id = u.id) :
    resolve_messages p = .ok [{ type := "text", role := "user", content := "hello" }] ∧
    ∀ (llm : LLMClient) (now : String),
      process_request llm now u p =
        handle_request_errors
          ((llm [{ type := "text", role := "user", content := "hello" }]
              p.metadata.mode p.model p.temperature p.max_tokens).map
            (build_response now p.metadata)) := by
  have hres : resolve_messages p =
      .ok [{ type := "text", role := "user", content := "hello" }] := by
    simp [resolve_messages, hm, hi, py_truthy_str]
  refine ⟨hres, ?_⟩
  intro llm now
  have hauth : (p.metadata.user_id != u.id) = false := by simp [hu]
  have htry : process_request_try llm now p =
      (llm [{ type := "text", role := "user", content := "hello" }]
          p.metadata.mode p.model p.temperature p.max_tokens).map
        (build_response now p.metadata) := by
    unfold process_request_try
    rw [hres]
    simp only [Bind.bind, Except.bind]
    cases llm [{ type := "text", role := "user", content := "hello" }]
        p.metadata.mode p.model p.temperature p.max_tokens <;> rfl
  unfold process_request
  rw [hauth, htry]
  rfl

/-- C9 witness: the concrete `input = "hello"` payload resolves to the single
synthetic user message, and a concrete run factors through the LLM client
applied to exactly that sequence. -/
theorem hello_input_promoted_witness :
    resolve_messages basePayload =
      .ok [{ type := "text", role := "user", content := "hello" }] ∧
    process_request stubLLM "T0" okUser basePayload =
      handle_request_errors
        ((stubLLM [{ type := "text", role := "user", content := "hello" }]
            basePayload.metadata.mode basePayload.model basePayload.temperature
            basePayload.max_tokens).map
          (build_response "T0" basePayload.metadata)) :=
  ⟨(hello_input_promoted basePayload okUser rfl rfl rfl).1,
   (hello_input_promoted basePayload okUser rfl rfl rfl).2 stubLLM "T0"⟩

/-- C10: the effective message sequence is resolved by Python truthiness with
`messages` taking precedence: a non-empty `messages` list is used and `input`
is ignored even when both are supplied; an empty `messages` list falls through
to a non-empty `input`; and an empty `messages` list with an absent or
empty-string `input` takes the missing-both branch
(`semantic.py` lines 64-81). -/
theorem truthiness_resolution (p : RequestPayload) :
    (p.messages ≠ [] → resolve_messages p = .ok p.messages) ∧
    (p.messages = [] → ∀ s, p.input = some s → s ≠ "" →
      resolve_messages p = .ok [{ type := "text", role := "user", content := s }]) ∧
    (p.messages = [] → (p.input = none ∨ p.input = some "") →
      resolve_messages p = .error (.httpException
        ⟨400, "Request must contain either \x27input\x27 or \x27messages\x27"⟩)) := by
  refine ⟨?_, ?_, ?_⟩
  · intro h
    simp [resolve_messages, h]
  · intro h s hs hne
    simp [resolve_messages, h, hs, py_truthy_str, hne]
  · intro h hi
    rcases hi with hi | hi <;> simp [resolve_messages, h, hi, py_truthy_str]

/-- C10 witness: the three branches at concrete payloads — both supplied
(messages win), only `input` supplied, and empty list plus empty string
(missing-both branch). -/
theorem truthiness_resolution_witness :
    resolve_messages msgPayload = .ok msgPayload.messages ∧
    resolve_messages basePayload =
      .ok [{ type := "text", role := "user", content := "hello" }] ∧
    resolve_messages emptyInputPayload = .error (.httpException
      ⟨400, "Request must contain either \x27input\x27 or \x27messages\x27"⟩) :=
  ⟨(truthiness_resolution msgPayload).1 (by decide),
   (truthiness_resolution basePayload).2.1 rfl "hello" rfl (by decide),
   (truthiness_resolution emptyInputPayload).2.2 rfl (Or.inr rfl)⟩
